import Mathlib

/-!
Shallow embedding of the `kubevishwa-tracing` controller
(`controller/main.go`), centred on the `Reconcile` method of
`TracingConfigReconciler`, together with proofs about the reconciliation
pass: payload compilation, config-object reconciliation, workload
patching, status reporting, error handling and idempotence.

The resource store (the Kubernetes API) is modelled as an explicit
`Cluster` state.  Each pass takes a fault oracle (`Faults`) describing
which store calls fail, and returns the new cluster state, the ordered
trace of store operations the pass performed (`Event` list), the final
in-memory status of the policy, and the error value the Go function
returns.
-/

namespace KV

/-- Label set of an object, as an association list (key, value). -/
abbrev Labels := List (String × String)

/-- Embeds `corev1.Pod` (only the fields the controller reads). -/
structure Pod where
  name : String
  nspace : String
  labels : Labels
deriving DecidableEq, Repr

/-- Embeds `corev1.EnvFromSource`: `configMapRef = some n` is a
`ConfigMapRef` with name `n`; `none` models any other source kind
(for example a `SecretRef`), which the controller never matches. -/
structure EnvFromSource where
  configMapRef : Option String
deriving DecidableEq, Repr

/-- Embeds `corev1.Container` (name and `EnvFrom` list). -/
structure Container where
  name : String
  envFrom : List EnvFromSource
deriving DecidableEq, Repr

/-- Embeds `appsv1.Deployment`: identity, the labels the list selector is
evaluated against, and the pod-template containers. -/
structure Deployment where
  name : String
  nspace : String
  labels : Labels
  containers : List Container
deriving DecidableEq, Repr

/-- Embeds `corev1.ConfigMap` (identity and string data). -/
structure ConfigMap where
  name : String
  nspace : String
  data : List (String × String)
deriving DecidableEq, Repr

/-- The resource store's state: the three object kinds the pass writes
or lists besides the policy itself. -/
structure Cluster where
  pods : List Pod
  configMaps : List ConfigMap
  deployments : List Deployment
deriving DecidableEq, Repr

/-- Embeds `metav1.LabelSelector` as seen through
`metav1.LabelSelectorAsSelector` (external library, an external
collaborator of the controller): `matchLabels` is the set of required
label equalities, and `parseError = some e` models a structurally
invalid selector on which the conversion fails with message `e`. -/
structure LabelSelector where
  matchLabels : Labels
  parseError : Option String
deriving DecidableEq, Repr

/-- Embeds `TracingConfigSpec` (controller/main.go). `samplingRate` is the
`float64` field, modelled as a rational; `nspace` is the `Namespace`
field (`""` = unset); `maxBatchSize` is a Go `int`. -/
structure TracingConfigSpec where
  enabled : Bool
  samplingRate : ℚ
  endpoint : String
  serviceName : String
  nspace : String
  selector : Option LabelSelector
  headers : List (String × String)
  attributes : List (String × String)
  exportTimeout : String
  batchTimeout : String
  maxBatchSize : Int
deriving DecidableEq, Repr

/-- Embeds `TracingConfigStatus`; `appliedAt` carries the model time of
the last successful apply. -/
structure TracingConfigStatus where
  phase : String
  message : String
  appliedAt : Option Nat
  targetPods : List String
deriving DecidableEq, Repr

/-- Embeds the `TracingConfig` custom resource. -/
structure TracingConfig where
  name : String
  nspace : String
  spec : TracingConfigSpec
  status : TracingConfigStatus
deriving DecidableEq, Repr

/-- One store operation attempted by a pass, in order.  `deployUpdate`
and the config events are recorded for every attempted call, whether or
not the oracle makes it fail. -/
inductive Event where
  | statusWrite (phase message : String)
  | podList
  | configGet
  | configCreate (nspace name : String) (data : List (String × String))
  | configUpdate (nspace name : String) (data : List (String × String))
  | deployList
  | deployUpdate (nspace name : String)
deriving DecidableEq, Repr

/-- Fault oracle for one pass: `some e` makes the corresponding store
call fail with message `e`.  `updateDeploymentErr` is queried per
deployment name.  Status writes are best-effort in the code (their
errors are logged and ignored), so they are not faulted here. -/
structure Faults where
  listPodsErr : Option String
  getConfigErr : Option String
  createConfigErr : Option String
  updateConfigErr : Option String
  listDeploymentsErr : Option String
  updateDeploymentErr : String → Option String

/-- The all-succeed oracle. -/
def noFaults : Faults :=
  { listPodsErr := none, getConfigErr := none, createConfigErr := none,
    updateConfigErr := none, listDeploymentsErr := none,
    updateDeploymentErr := fun _ => none }

/-- Result of one reconcile pass: final store state, ordered operation
trace, the policy status as last computed in memory (and written, since
status writes are modelled as succeeding), and the error the Go
function returns (`some msg`) or `none` on success. -/
structure RecResult where
  cluster : Cluster
  events : List Event
  status : TracingConfigStatus
  ret : Option String
deriving DecidableEq, Repr

/-- Pad a natural below 100 to two decimal digits. -/
def pad2 (n : Nat) : String :=
  if n < 10 then "0" ++ toString n else toString n

/-- Embeds `fmt.Sprintf("%.2f", x)`: the rate rendered with exactly two
digits after the decimal point. -/
def fmt2 (q : ℚ) : String :=
  let n : ℤ := round (q * 100)
  if n < 0 then
    "-" ++ toString ((-n) / 100) ++ "." ++ pad2 ((-n) % 100).toNat
  else
    toString (n / 100) ++ "." ++ pad2 ((n % 100)).toNat

/-- Go map insert: replace the binding if the key is present, else
append it. -/
def upsert : List (String × String) → String → String → List (String × String)
  | [], k, v => [(k, v)]
  | (k', v') :: rest, k, v =>
      if k' == k then (k, v) :: rest else (k', v') :: upsert rest k v

/-- The fixed prefix for attribute-derived keys. -/
def attrPrefixStr : String := "OTEL_RESOURCE_ATTRIBUTES_"

/-- Embeds the Desired-State Compiler (controller/main.go lines 204-231):
the `configMap.Data` literal, the three optional keys, then one key per
attribute entry. -/
def compileData (s : TracingConfigSpec) : List (String × String) :=
  let d : List (String × String) :=
    [("OTEL_EXPORTER_OTLP_ENDPOINT", s.endpoint),
     ("OTEL_SERVICE_NAME", s.serviceName),
     ("OTEL_TRACES_SAMPLER", "traceidratio"),
     ("OTEL_TRACES_SAMPLER_ARG", fmt2 s.samplingRate)]
  let d := if s.exportTimeout ≠ "" then upsert d "OTEL_EXPORTER_OTLP_TIMEOUT" s.exportTimeout else d
  let d := if s.batchTimeout ≠ "" then upsert d "OTEL_BSP_SCHEDULE_DELAY" s.batchTimeout else d
  let d := if s.maxBatchSize > 0 then upsert d "OTEL_BSP_MAX_EXPORT_BATCH_SIZE" (toString s.maxBatchSize) else d
  s.attributes.foldl (fun acc kv => upsert acc (attrPrefixStr ++ kv.1) kv.2) d

/-- A label set satisfies a set of required equalities. -/
def labelsMatch (req : Labels) (ls : Labels) : Bool :=
  req.all fun kv => ls.lookup kv.1 == some kv.2

/-- An optional selector evaluated on a label set: an absent selector
matches everything (the list is only namespace-restricted). -/
def selMatch (sel : Option Labels) (ls : Labels) : Bool :=
  match sel with
  | none => true
  | some req => labelsMatch req ls

/-- The list options of the pass applied to a pod. -/
def podMatches (tns : String) (sel : Option Labels) (p : Pod) : Bool :=
  p.nspace == tns && selMatch sel p.labels

/-- The list options of the pass applied to a deployment. -/
def deployMatches (tns : String) (sel : Option Labels) (d : Deployment) : Bool :=
  d.nspace == tns && selMatch sel d.labels

/-- Does a container's `EnvFrom` list already reference this config map
(controller/main.go lines 275-281)? -/
def hasConfigMapRef (nm : String) (c : Container) : Bool :=
  c.envFrom.any fun e => e.configMapRef == some nm

/-- Patch one container (lines 283-292): append the reference iff it is
absent. -/
def patchContainer (nm : String) (c : Container) : Container :=
  if hasConfigMapRef nm c then c
  else { c with envFrom := c.envFrom ++ [{ configMapRef := some nm }] }

/-- Patch every container of a deployment (the inner loop). -/
def patchDeployment (nm : String) (d : Deployment) : Deployment :=
  { d with containers := d.containers.map (patchContainer nm) }

/-- The `updated` flag of the loop: at least one container was missing
the reference. -/
def needsPatch (nm : String) (d : Deployment) : Bool :=
  d.containers.any fun c => !hasConfigMapRef nm c

/-- The effective target namespace (lines 172-175). -/
def targetNs (tc : TracingConfig) : String :=
  if tc.spec.nspace == "" then tc.nspace else tc.spec.nspace

/-- The derived config object's name (line 203). -/
def configMapName (tc : TracingConfig) : String :=
  tc.name ++ "-tracing-config"

/-- The selector requirement actually passed to the list calls once
parsing succeeded. -/
def selOf (tc : TracingConfig) : Option Labels :=
  tc.spec.selector.map (·.matchLabels)

/-- The pass's selector either is absent or parses successfully. -/
def selectorOkB (tc : TracingConfig) : Bool :=
  match tc.spec.selector with
  | none => true
  | some s => s.parseError.isNone

/-- Final stage (lines 305-321): collect matched pod names and write the
`Applied` status. -/
def stageFinal (cl : Cluster) (now : Nat) (pods : List Pod) (evs : List Event)
    (st : TracingConfigStatus) : RecResult :=
  let names := pods.map Pod.name
  let msg := "Tracing configuration applied to " ++ toString names.length ++ " pods"
  let st' := { st with phase := "Applied", message := msg, appliedAt := some now, targetPods := names }
  { cluster := cl,
    events := evs ++ [Event.statusWrite "Applied" msg],
    status := st',
    ret := none }

/-- Workload-patching stage (lines 264-303): list deployments (a failure
is only logged and the loop skipped), then for each matched deployment
patch its containers and, iff the `updated` flag is set, attempt one
update call; a per-deployment update failure is only logged. -/
def stageDeploy (cl : Cluster) (f : Faults) (now : Nat) (tns : String)
    (sel : Option Labels) (pods : List Pod) (nm : String) (evs : List Event)
    (st : TracingConfigStatus) : RecResult :=
  let evs := evs ++ [Event.deployList]
  match f.listDeploymentsErr with
  | some _ => stageFinal cl now pods evs st
  | none =>
      let newDeps := cl.deployments.map fun d =>
        if deployMatches tns sel d && needsPatch nm d
            && (f.updateDeploymentErr d.name).isNone
        then patchDeployment nm d else d
      let updEvs := (cl.deployments.filter fun d =>
          deployMatches tns sel d && needsPatch nm d).map fun d =>
        Event.deployUpdate d.nspace d.name
      stageFinal { cl with deployments := newDeps } now pods (evs ++ updEvs) st

/-- Config-object stage (lines 202-262): read the existing config map; a
non-NotFound read failure returns at once with no status write; absence
leads to a create, presence to an unconditional full-replace update;
a create/update failure writes a `Failed` status and aborts. -/
def stageConfig (tc : TracingConfig) (cl : Cluster) (f : Faults) (now : Nat)
    (tns : String) (sel : Option Labels) (pods : List Pod) (evs : List Event)
    (st : TracingConfigStatus) : RecResult :=
  let nm := configMapName tc
  let data := compileData tc.spec
  let evs := evs ++ [Event.configGet]
  match f.getConfigErr with
  | some e => { cluster := cl, events := evs, status := st, ret := some e }
  | none =>
      match cl.configMaps.find? (fun cm => cm.name == nm && cm.nspace == tns) with
      | none =>
          match f.createConfigErr with
          | some e =>
              let msg := "Failed to create ConfigMap: " ++ e
              { cluster := cl,
                events := evs ++ [Event.configCreate tns nm data,
                                  Event.statusWrite "Failed" msg],
                status := { st with phase := "Failed", message := msg },
                ret := some e }
          | none =>
              stageDeploy
                { cl with configMaps := cl.configMaps ++ [⟨nm, tns, data⟩] }
                f now tns sel pods nm
                (evs ++ [Event.configCreate tns nm data]) st
      | some _ =>
          match f.updateConfigErr with
          | some e =>
              let msg := "Failed to update ConfigMap: " ++ e
              { cluster := cl,
                events := evs ++ [Event.configUpdate tns nm data,
                                  Event.statusWrite "Failed" msg],
                status := { st with phase := "Failed", message := msg },
                ret := some e }
          | none =>
              stageDeploy
                { cl with configMaps := cl.configMaps.map (fun cm =>
                    if cm.name == nm && cm.nspace == tns then { cm with data := data } else cm) }
                f now tns sel pods nm
                (evs ++ [Event.configUpdate tns nm data]) st

/-- Pod-listing stage (lines 177-200): a failure writes a `Failed`
status and aborts the pass. -/
def stagePods (tc : TracingConfig) (cl : Cluster) (f : Faults) (now : Nat)
    (tns : String) (sel : Option Labels) (evs : List Event)
    (st : TracingConfigStatus) : RecResult :=
  let evs := evs ++ [Event.podList]
  match f.listPodsErr with
  | some e =>
      let msg := "Failed to list pods: " ++ e
      { cluster := cl,
        events := evs ++ [Event.statusWrite "Failed" msg],
        status := { st with phase := "Failed", message := msg },
        ret := some e }
  | none =>
      stageConfig tc cl f now tns sel (cl.pods.filter (podMatches tns sel)) evs st

/-- Embeds `TracingConfigReconciler.Reconcile` (lines 154-325) for a
pass in which the policy fetch succeeded: set the `Pending` status, then
resolve the selector (an invalid one writes a `Failed` status naming the
problem and aborts), then run the remaining stages. -/
def Reconcile (tc : TracingConfig) (cl : Cluster) (f : Faults) (now : Nat) : RecResult :=
  let st0 : TracingConfigStatus :=
    { tc.status with phase := "Pending", message := "Processing tracing configuration" }
  let evs0 := [Event.statusWrite "Pending" "Processing tracing configuration"]
  let tns := targetNs tc
  match tc.spec.selector with
  | some sel =>
      match sel.parseError with
      | some e =>
          let msg := "Invalid label selector: " ++ e
          { cluster := cl,
            events := evs0 ++ [Event.statusWrite "Failed" msg],
            status := { st0 with phase := "Failed", message := msg },
            ret := some e }
      | none => stagePods tc cl f now tns (some sel.matchLabels) evs0 st0
  | none => stagePods tc cl f now tns none evs0 st0

/-- Is this event a write (create or update) of the derived config
object? -/
def isConfigWrite : Event → Bool
  | Event.configCreate _ _ _ => true
  | Event.configUpdate _ _ _ => true
  | _ => false

/-- Is this event a workload (deployment) update attempt? -/
def isWorkloadWrite : Event → Bool
  | Event.deployUpdate _ _ => true
  | _ => false

/-- Number of config-object writes in a trace. -/
def countConfigWrites (evs : List Event) : Nat :=
  (evs.filter isConfigWrite).length

/-- Number of workload update attempts in a trace. -/
def countWorkloadWrites (evs : List Event) : Nat :=
  (evs.filter isWorkloadWrite).length

/-- Number of references to the named config object in a container's
`EnvFrom` list. -/
def countRefs (nm : String) (c : Container) : Nat :=
  (c.envFrom.filter fun e => e.configMapRef == some nm).length

/-- The container patch iterated over `n` reconcile passes. -/
def patchContainerN (nm : String) : Nat → Container → Container
  | 0, c => c
  | n + 1, c => patchContainerN nm n (patchContainer nm c)

/-- Payload contents as the specification words them (§4.2 / §6 of the
spec): the four required keys, the three optional keys guarded by their
spec fields, and one prefixed key per attribute entry.  This definition
follows the SPEC's description and is compared against `compileData`,
which embeds the source. -/
def specPayload (s : TracingConfigSpec) (k : String) : Option String :=
  if k = "OTEL_EXPORTER_OTLP_ENDPOINT" then some s.endpoint
  else if k = "OTEL_SERVICE_NAME" then some s.serviceName
  else if k = "OTEL_TRACES_SAMPLER" then some "traceidratio"
  else if k = "OTEL_TRACES_SAMPLER_ARG" then some (fmt2 s.samplingRate)
  else if k = "OTEL_EXPORTER_OTLP_TIMEOUT" then
    (if s.exportTimeout ≠ "" then some s.exportTimeout else none)
  else if k = "OTEL_BSP_SCHEDULE_DELAY" then
    (if s.batchTimeout ≠ "" then some s.batchTimeout else none)
  else if k = "OTEL_BSP_MAX_EXPORT_BATCH_SIZE" then
    (if s.maxBatchSize > 0 then some (toString s.maxBatchSize) else none)
  else (s.attributes.find? (fun kv => attrPrefixStr ++ kv.1 == k)).map Prod.snd

/-- A concrete policy used to instantiate the general theorems: sampling
rate one half, one attribute, a valid one-label selector. -/
def exPolicy : TracingConfig :=
  { name := "pol", nspace := "default",
    spec := { enabled := true, samplingRate := 1/2, endpoint := "collector:4317",
              serviceName := "svc-a", nspace := "",
              selector := some { matchLabels := [("app", "svc-a")], parseError := none },
              headers := [], attributes := [("team", "core")],
              exportTimeout := "", batchTimeout := "", maxBatchSize := 0 },
    status := { phase := "", message := "", appliedAt := none, targetPods := [] } }

/-- The same policy with a structurally invalid selector. -/
def exPolicyBadSel : TracingConfig :=
  { exPolicy with spec := { exPolicy.spec with
      selector := some { matchLabels := [], parseError := some "bad operator" } } }

/-- A concrete matching deployment with one container and no prior
reference. -/
def exDeployment : Deployment :=
  { name := "d1", nspace := "default", labels := [("app", "svc-a")],
    containers := [{ name := "c1", envFrom := [] }] }

/-- A concrete cluster: one matching pod and one matching single-container
deployment, no config maps yet. -/
def exCluster : Cluster :=
  { pods := [{ name := "p1", nspace := "default", labels := [("app", "svc-a")] }],
    configMaps := [],
    deployments := [exDeployment] }

/-- A container already holding one reference to `pol-tracing-config`
plus one unrelated reference. -/
def exContainer : Container :=
  { name := "c1",
    envFrom := [{ configMapRef := some "other" },
                { configMapRef := some "pol-tracing-config" }] }

/-- The example cluster with the derived config object already present
(as after a first pass, with stale data). -/
def exClusterWithCM : Cluster :=
  { exCluster with configMaps := [{ name := "pol-tracing-config", nspace := "default", data := [] }] }

/-- Fault oracle failing only the pod list. -/
def faultListPods (e : String) : Faults := { noFaults with listPodsErr := some e }

/-- Fault oracle failing only the config-object read. -/
def faultGetConfig (e : String) : Faults := { noFaults with getConfigErr := some e }

/-- Fault oracle failing only the config-object create. -/
def faultCreateConfig (e : String) : Faults := { noFaults with createConfigErr := some e }

/-- Fault oracle failing only the config-object update. -/
def faultUpdateConfig (e : String) : Faults := { noFaults with updateConfigErr := some e }

/-- Fault oracle failing only the deployment list. -/
def faultListDeployments (e : String) : Faults := { noFaults with listDeploymentsErr := some e }

/-- Fault oracle failing the update of deployments with the given name. -/
def faultUpdateDeployment (nm e : String) : Faults :=
  { noFaults with updateDeploymentErr := fun n => if n == nm then some e else none }

/-- Number of pods the pass's listing matches for this policy. -/
def matchedPodCount (tc : TracingConfig) (cl : Cluster) : Nat :=
  (cl.pods.filter (podMatches (targetNs tc) (selOf tc))).length

/-! ### Helper lemmas about the compiled payload -/

/-- String append is left-cancellative. -/
theorem string_append_left_cancel {s t u : String} (h : s ++ t = s ++ u) : t = u := by
  apply String.ext
  have h2 := congrArg String.data h
  simp only [String.data_append] at h2
  exact List.append_cancel_left h2

/-- Looking a key up after a Go map insert. -/
theorem lookup_upsert (m : List (String × String)) (ik iv k : String) :
    (upsert m ik iv).lookup k = if k = ik then some iv else m.lookup k := by
  induction m with
  | nil =>
      by_cases h : k = ik
      · simp [upsert, List.lookup_cons, h]
      · simp [upsert, List.lookup_cons, h, beq_false_of_ne h]
  | cons hd tl ih =>
      obtain ⟨a, b⟩ := hd
      by_cases hak : a = ik
      · subst hak
        by_cases h : k = a
        · simp [upsert, List.lookup_cons, h]
        · simp [upsert, List.lookup_cons, h, beq_false_of_ne h]
      · have hb : (a == ik) = false := beq_false_of_ne hak
        by_cases h : k = a
        · have hk : ¬ k = ik := fun hh => hak (h.symm.trans hh)
          simp [upsert, hb, List.lookup_cons, h, hk, hak]
        · simp [upsert, hb, List.lookup_cons, h, beq_false_of_ne h, ih]

/-- Looking a key up through the attribute fold: the first attribute
whose prefixed key matches wins, otherwise the accumulator decides.
Requires the attribute keys to be distinct, as they are for a Go map. -/
theorem lookup_attr_fold (attrs : List (String × String))
    (acc : List (String × String)) (k : String)
    (h : (attrs.map Prod.fst).Nodup) :
    ((attrs.foldl (fun a kv => upsert a (attrPrefixStr ++ kv.1) kv.2) acc).lookup k)
      = match attrs.find? (fun kv => attrPrefixStr ++ kv.1 == k) with
        | some kv => some kv.2
        | none => acc.lookup k := by
  induction attrs generalizing acc with
  | nil => simp
  | cons hd tl ih =>
      simp only [List.map_cons, List.nodup_cons] at h
      obtain ⟨hnotmem, htl⟩ := h
      simp only [List.foldl_cons, List.find?_cons]
      by_cases hp : (attrPrefixStr ++ hd.1 == k) = true
      · have hk : attrPrefixStr ++ hd.1 = k := by simpa using hp
        have hnone : tl.find? (fun kv => attrPrefixStr ++ kv.1 == k) = none := by
          rw [List.find?_eq_none]
          intro x hx hpx
          have hx2 : attrPrefixStr ++ x.1 = k := by simpa using hpx
          have : x.1 = hd.1 := string_append_left_cancel (by rw [hx2, hk])
          exact hnotmem (this ▸ List.mem_map_of_mem Prod.fst hx)
        rw [ih _ htl, hnone, hp, lookup_upsert]
        simp [← hk]
      · have hp' : (attrPrefixStr ++ hd.1 == k) = false := by
          simpa using hp
        have hkne : k ≠ attrPrefixStr ++ hd.1 := by
          intro hh; exact hp (by simp [hh])
        rw [ih _ htl, hp']
        cases hfind : tl.find? (fun kv => attrPrefixStr ++ kv.1 == k) with
        | none => simp [lookup_upsert, hkne]
        | some kv => simp

/-- Character at index 5 of any attribute-derived key is the first
letter distinguishing the fixed prefix from every fixed key. -/
theorem attrKey_char5 (a : String) :
    ((attrPrefixStr ++ a).data)[5]? = some 'R' := by
  rw [String.data_append]
  rw [List.getElem?_append_left (by decide : 5 < attrPrefixStr.data.length)]
  rfl

/-- No attribute-derived key coincides with a key whose character at
index 5 is not `R`. -/
theorem attrKey_ne (a k : String) (hk : (k.data)[5]? ≠ some 'R') :
    attrPrefixStr ++ a ≠ k := by
  intro h
  exact hk (h ▸ attrKey_char5 a)

/-- If no attribute matches the key, the attribute search is empty. -/
theorem find?_attr_none (attrs : List (String × String)) (k : String)
    (h : ∀ a, attrPrefixStr ++ a ≠ k) :
    attrs.find? (fun kv => attrPrefixStr ++ kv.1 == k) = none := by
  rw [List.find?_eq_none]
  intro x _ hx
  exact h x.1 (by simpa using hx)

/-- The compiled payload agrees with the spec's description at every
key, provided the attribute keys are distinct (Go map). -/
theorem compileData_lookup (s : TracingConfigSpec)
    (h : (s.attributes.map Prod.fst).Nodup) (k : String) :
    (compileData s).lookup k = specPayload s k := by
  unfold compileData
  rw [lookup_attr_fold _ _ _ h]
  by_cases h1 : k = "OTEL_EXPORTER_OTLP_ENDPOINT"
  · subst h1
    rw [find?_attr_none _ _ (fun a => attrKey_ne a _ (by decide))]
    by_cases hE : s.exportTimeout = "" <;> by_cases hB : s.batchTimeout = "" <;>
      by_cases hM : s.maxBatchSize > 0 <;>
      simp [specPayload, hE, hB, hM, lookup_upsert, List.lookup_cons]
  · by_cases h2 : k = "OTEL_SERVICE_NAME"
    · subst h2
      rw [find?_attr_none _ _ (fun a => attrKey_ne a _ (by decide))]
      by_cases hE : s.exportTimeout = "" <;> by_cases hB : s.batchTimeout = "" <;>
        by_cases hM : s.maxBatchSize > 0 <;>
        simp [specPayload, hE, hB, hM, lookup_upsert, List.lookup_cons]
    · by_cases h3 : k = "OTEL_TRACES_SAMPLER"
      · subst h3
        rw [find?_attr_none _ _ (fun a => attrKey_ne a _ (by decide))]
        by_cases hE : s.exportTimeout = "" <;> by_cases hB : s.batchTimeout = "" <;>
          by_cases hM : s.maxBatchSize > 0 <;>
          simp [specPayload, hE, hB, hM, lookup_upsert, List.lookup_cons]
      · by_cases h4 : k = "OTEL_TRACES_SAMPLER_ARG"
        · subst h4
          rw [find?_attr_none _ _ (fun a => attrKey_ne a _ (by decide))]
          by_cases hE : s.exportTimeout = "" <;> by_cases hB : s.batchTimeout = "" <;>
            by_cases hM : s.maxBatchSize > 0 <;>
            simp [specPayload, hE, hB, hM, lookup_upsert, List.lookup_cons]
        · by_cases h5 : k = "OTEL_EXPORTER_OTLP_TIMEOUT"
          · subst h5
            rw [find?_attr_none _ _ (fun a => attrKey_ne a _ (by decide))]
            by_cases hE : s.exportTimeout = "" <;> by_cases hB : s.batchTimeout = "" <;>
              by_cases hM : s.maxBatchSize > 0 <;>
              simp [specPayload, hE, hB, hM, lookup_upsert, List.lookup_cons]
          · by_cases h6 : k = "OTEL_BSP_SCHEDULE_DELAY"
            · subst h6
              rw [find?_attr_none _ _ (fun a => attrKey_ne a _ (by decide))]
              by_cases hE : s.exportTimeout = "" <;> by_cases hB : s.batchTimeout = "" <;>
                by_cases hM : s.maxBatchSize > 0 <;>
                simp [specPayload, hE, hB, hM, lookup_upsert, List.lookup_cons]
            · by_cases h7 : k = "OTEL_BSP_MAX_EXPORT_BATCH_SIZE"
              · subst h7
                rw [find?_attr_none _ _ (fun a => attrKey_ne a _ (by decide))]
                by_cases hE : s.exportTimeout = "" <;> by_cases hB : s.batchTimeout = "" <;>
                  by_cases hM : s.maxBatchSize > 0 <;>
                  simp [specPayload, hE, hB, hM, lookup_upsert, List.lookup_cons]
              · cases hfind : s.attributes.find? (fun kv => attrPrefixStr ++ kv.1 == k) with
                | some kv => simp [specPayload, h1, h2, h3, h4, h5, h6, h7, hfind]
                | none =>
                    simp only [specPayload, h1, h2, h3, h4, h5, h6, h7, if_false, hfind,
                               Option.map_none']
                    by_cases hE : s.exportTimeout = "" <;> by_cases hB : s.batchTimeout = "" <;>
                      by_cases hM : s.maxBatchSize > 0 <;>
                      simp [hE, hB, hM, lookup_upsert, List.lookup_cons, h1, h2, h3, h4, h5, h6, h7,
                            beq_false_of_ne h1, beq_false_of_ne h2, beq_false_of_ne h3,
                            beq_false_of_ne h4]

/-- Two-digit padding always yields two characters below 100. -/
theorem pad2_length (m : Nat) (h : m < 100) : (pad2 m).length = 2 := by
  have hall : ∀ i : Fin 100, (pad2 i.1).length = 2 := by decide
  exact hall ⟨m, h⟩

/-- The formatted sampler ratio always carries exactly two digits after
the decimal point. -/
theorem fmt2_two_decimals (q : ℚ) :
    ∃ a b, fmt2 q = a ++ "." ++ b ∧ b.length = 2 := by
  unfold fmt2
  by_cases hn : round (q * 100) < 0
  · refine ⟨"-" ++ toString (-round (q * 100) / 100),
            pad2 ((-round (q * 100)) % 100).toNat, by simp [hn], ?_⟩
    apply pad2_length
    have h1 : (0:ℤ) ≤ (-round (q * 100)) % 100 := Int.emod_nonneg _ (by norm_num)
    have h2 : (-round (q * 100)) % 100 < 100 := Int.emod_lt_of_pos _ (by norm_num)
    omega
  · refine ⟨toString (round (q * 100) / 100),
            pad2 ((round (q * 100)) % 100).toNat, by simp [hn], ?_⟩
    apply pad2_length
    have h1 : (0:ℤ) ≤ (round (q * 100)) % 100 := Int.emod_nonneg _ (by norm_num)
    have h2 : (round (q * 100)) % 100 < 100 := Int.emod_lt_of_pos _ (by norm_num)
    omega

/-- C4: for every policy spec, the compiled config payload contains
exactly the four required keys (endpoint, service name, sampler kind
fixed to `traceidratio`, sampler ratio formatted to 2 decimal places),
the export-timeout key iff the export timeout field is set, the
batch-schedule-delay key iff the batch timeout field is set, the
max-batch-size key (plain integer) iff max batch size is positive, plus
one prefixed key per attribute entry with the value unchanged: the
payload's lookup function coincides with `specPayload`, the spec's own
description, at every key, and the ratio has exactly two digits after
the decimal point. -/
theorem c4_compiled_payload (s : TracingConfigSpec)
    (h : (s.attributes.map Prod.fst).Nodup) (k : String) :
    (compileData s).lookup k = specPayload s k
      ∧ ∃ a b, fmt2 s.samplingRate = a ++ "." ++ b ∧ b.length = 2 :=
  ⟨compileData_lookup s h k, fmt2_two_decimals s.samplingRate⟩

/-- Witness for C4 at the concrete example policy. -/
theorem c4_compiled_payload_witness :
    (exPolicy.spec.attributes.map Prod.fst).Nodup
      ∧ ((compileData exPolicy.spec).lookup "OTEL_RESOURCE_ATTRIBUTES_team"
            = specPayload exPolicy.spec "OTEL_RESOURCE_ATTRIBUTES_team"
        ∧ ∃ a b, fmt2 exPolicy.spec.samplingRate = a ++ "." ++ b ∧ b.length = 2) :=
  ⟨by decide, c4_compiled_payload exPolicy.spec (by decide) "OTEL_RESOURCE_ATTRIBUTES_team"⟩

/-- A key-determined search is invariant under permutation when the
keys are distinct. -/
theorem find?_key_perm (l1 l2 : List (String × String)) (k : String)
    (hperm : l1.Perm l2) (h1 : (l1.map Prod.fst).Nodup) :
    l1.find? (fun kv => attrPrefixStr ++ kv.1 == k)
      = l2.find? (fun kv => attrPrefixStr ++ kv.1 == k) := by
  cases hf1 : l1.find? (fun kv => attrPrefixStr ++ kv.1 == k) with
  | none =>
      have hnone := List.find?_eq_none.mp hf1
      symm
      rw [List.find?_eq_none]
      intro x hx
      exact hnone x (hperm.mem_iff.mpr hx)
  | some x =>
      have hx_mem : x ∈ l1 := List.mem_of_find?_eq_some hf1
      have hx_p := List.find?_some hf1
      have hsome : (l2.find? (fun kv => attrPrefixStr ++ kv.1 == k)).isSome :=
        List.find?_isSome.mpr ⟨x, hperm.mem_iff.mp hx_mem, hx_p⟩
      cases hf2 : l2.find? (fun kv => attrPrefixStr ++ kv.1 == k) with
      | none => rw [hf2] at hsome; simp at hsome
      | some y =>
          have hy_mem : y ∈ l2 := List.mem_of_find?_eq_some hf2
          have hy_p := List.find?_some hf2
          have hkx : attrPrefixStr ++ x.1 = k := by simpa using hx_p
          have hky : attrPrefixStr ++ y.1 = k := by simpa using hy_p
          have hkey : x.1 = y.1 := string_append_left_cancel (hkx.trans hky.symm)
          have hxy : x = y :=
            List.inj_on_of_nodup_map h1 hx_mem (hperm.mem_iff.mpr hy_mem) hkey
          rw [hxy]

/-- C9: the Desired-State Compiler is a deterministic pure function of
the spec: two runs whose attribute maps are the same mapping presented
in different iteration orders produce identical payloads as key-value
mappings. -/
theorem c9_determinism (s : TracingConfigSpec)
    (attrs1 attrs2 : List (String × String)) (hperm : attrs1.Perm attrs2)
    (h1 : (attrs1.map Prod.fst).Nodup) (k : String) :
    (compileData { s with attributes := attrs1 }).lookup k
      = (compileData { s with attributes := attrs2 }).lookup k := by
  have h2 : (attrs2.map Prod.fst).Nodup := (hperm.map Prod.fst).nodup h1
  rw [compileData_lookup _ (by simpa using h1) k, compileData_lookup _ (by simpa using h2) k]
  unfold specPayload
  simp only
  rw [find?_key_perm attrs1 attrs2 k hperm h1]

/-- Witness for C9 at a two-attribute map presented in both orders. -/
theorem c9_determinism_witness :
    ([("team", "core"), ("env", "dev")] : List (String × String)).Perm
        [("env", "dev"), ("team", "core")]
      ∧ (([("team", "core"), ("env", "dev")] : List (String × String)).map Prod.fst).Nodup
      ∧ (compileData { exPolicy.spec with attributes := [("team", "core"), ("env", "dev")] }).lookup
            "OTEL_RESOURCE_ATTRIBUTES_env"
          = (compileData { exPolicy.spec with attributes := [("env", "dev"), ("team", "core")] }).lookup
            "OTEL_RESOURCE_ATTRIBUTES_env" := by
  refine ⟨?_, by decide, ?_⟩
  · exact List.Perm.swap _ _ _
  · exact c9_determinism exPolicy.spec _ _ (List.Perm.swap _ _ _) (by decide)
      "OTEL_RESOURCE_ATTRIBUTES_env"

/-! ### Helper lemmas about workload patching -/

/-- A container already carrying the reference is left untouched. -/
theorem patch_of_hasRef {nm : String} {c : Container}
    (h : hasConfigMapRef nm c = true) : patchContainer nm c = c := by
  simp [patchContainer, h]

/-- A patched container always carries the reference. -/
theorem hasRef_patch (nm : String) (c : Container) :
    hasConfigMapRef nm (patchContainer nm c) = true := by
  by_cases h : hasConfigMapRef nm c
  · rw [patch_of_hasRef h]; exact h
  · unfold patchContainer
    rw [if_neg h]
    simp [hasConfigMapRef, List.any_append]

/-- A container with at least one reference makes `hasConfigMapRef`
true, and conversely. -/
theorem countRefs_pos_iff (nm : String) (c : Container) :
    0 < countRefs nm c ↔ hasConfigMapRef nm c = true := by
  constructor
  · intro h
    obtain ⟨e, he⟩ := List.exists_mem_of_length_pos h
    have := List.mem_filter.mp he
    simp only [hasConfigMapRef, List.any_eq_true]
    exact ⟨e, this.1, this.2⟩
  · intro h
    simp only [hasConfigMapRef, List.any_eq_true] at h
    obtain ⟨e, he, hp⟩ := h
    exact List.length_pos_of_mem (List.mem_filter.mpr ⟨he, hp⟩)

/-- One patch brings the reference count to exactly one if it was zero
and leaves it unchanged otherwise. -/
theorem countRefs_patch (nm : String) (c : Container) :
    countRefs nm (patchContainer nm c) = max 1 (countRefs nm c) := by
  by_cases h : hasConfigMapRef nm c
  · rw [patch_of_hasRef h]
    have := (countRefs_pos_iff nm c).mpr h
    omega
  · have hzero : countRefs nm c = 0 := by
      by_contra hc
      exact h ((countRefs_pos_iff nm c).mp (Nat.pos_of_ne_zero hc))
    unfold patchContainer
    rw [if_neg h]
    simp only [countRefs, List.filter_append] at hzero ⊢
    have hone : (List.filter (fun e => e.configMapRef == some nm)
        ([{ configMapRef := some nm }] : List EnvFromSource)).length = 1 := by simp
    simp only [List.length_append, hone, hzero]
    omega

/-- C5: patching the same container across `n+1` repeated passes yields
exactly one reference when it started with none — never `n` — and
leaves the count unchanged (in particular at one) when a reference is
already present; moreover a container already carrying the reference is
left completely untouched. -/
theorem c5_no_duplication (nm : String) (c : Container) (n : Nat) :
    countRefs nm (patchContainerN nm (n + 1) c) = max 1 (countRefs nm c)
      ∧ (hasConfigMapRef nm c = true → patchContainer nm c = c) := by
  constructor
  · induction n generalizing c with
    | zero => simpa [patchContainerN] using countRefs_patch nm c
    | succ m ih =>
        have step : patchContainerN nm (m + 2) c
            = patchContainerN nm (m + 1) (patchContainer nm c) := rfl
        rw [step, ih, countRefs_patch]
        omega
  · exact fun h => patch_of_hasRef h

/-- Witness for C5 at a container that already carries the reference
once (plus an unrelated reference): three more passes keep the count at
one and do not modify the container. -/
theorem c5_no_duplication_witness :
    hasConfigMapRef "pol-tracing-config" exContainer = true
      ∧ countRefs "pol-tracing-config"
            (patchContainerN "pol-tracing-config" 3 exContainer)
          = max 1 (countRefs "pol-tracing-config" exContainer)
      ∧ patchContainer "pol-tracing-config" exContainer = exContainer := by
  refine ⟨by decide, ?_, ?_⟩
  · exact (c5_no_duplication "pol-tracing-config" exContainer 2).1
  · exact (c5_no_duplication "pol-tracing-config" exContainer 2).2 (by decide)

/-! ### Reconcile pass machinery -/

/-- With a valid (or absent) selector the pass proceeds past the
selector check into the listing stages. -/
theorem reconcile_selOk (tc : TracingConfig) (cl : Cluster) (f : Faults) (now : Nat)
    (hsel : selectorOkB tc = true) :
    Reconcile tc cl f now
      = stagePods tc cl f now (targetNs tc) (selOf tc)
          [Event.statusWrite "Pending" "Processing tracing configuration"]
          { tc.status with phase := "Pending", message := "Processing tracing configuration" } := by
  unfold Reconcile
  cases hs : tc.spec.selector with
  | none => simp [hs, selOf]
  | some s =>
      have hpe : s.parseError = none := by
        unfold selectorOkB at hsel
        rw [hs] at hsel
        exact Option.isNone_iff_eq_none.mp hsel
      simp [hs, hpe, selOf]

/-- A successful pod list hands over to the config stage. -/
theorem stagePods_eq_ok (tc : TracingConfig) (cl : Cluster) (f : Faults) (now : Nat)
    (tns : String) (sel : Option Labels) (evs : List Event) (st : TracingConfigStatus)
    (h1 : f.listPodsErr = none) :
    stagePods tc cl f now tns sel evs st
      = stageConfig tc cl f now tns sel (cl.pods.filter (podMatches tns sel))
          (evs ++ [Event.podList]) st := by
  unfold stagePods
  rw [h1]

/-- Config stage, create branch: readable store, object absent,
successful create. -/
theorem stageConfig_eq_create (tc : TracingConfig) (cl : Cluster) (f : Faults) (now : Nat)
    (tns : String) (sel : Option Labels) (pods : List Pod) (evs : List Event)
    (st : TracingConfigStatus)
    (h2 : f.getConfigErr = none) (h3 : f.createConfigErr = none)
    (hfind : cl.configMaps.find?
        (fun cm => cm.name == configMapName tc && cm.nspace == tns) = none) :
    stageConfig tc cl f now tns sel pods evs st
      = stageDeploy
          { cl with configMaps := cl.configMaps
              ++ [{ name := configMapName tc, nspace := tns, data := compileData tc.spec }] }
          f now tns sel pods (configMapName tc)
          ((evs ++ [Event.configGet])
            ++ [Event.configCreate tns (configMapName tc) (compileData tc.spec)]) st := by
  unfold stageConfig
  simp only [h2, h3, hfind]

/-- Config stage, update branch: readable store, object present,
successful unconditional overwrite. -/
theorem stageConfig_eq_update (tc : TracingConfig) (cl : Cluster) (f : Faults) (now : Nat)
    (tns : String) (sel : Option Labels) (pods : List Pod) (evs : List Event)
    (st : TracingConfigStatus) (cm0 : ConfigMap)
    (h2 : f.getConfigErr = none) (h4 : f.updateConfigErr = none)
    (hfind : cl.configMaps.find?
        (fun cm => cm.name == configMapName tc && cm.nspace == tns) = some cm0) :
    stageConfig tc cl f now tns sel pods evs st
      = stageDeploy
          { cl with configMaps := cl.configMaps.map (fun cm =>
              if cm.name == configMapName tc && cm.nspace == tns
              then { cm with data := compileData tc.spec } else cm) }
          f now tns sel pods (configMapName tc)
          ((evs ++ [Event.configGet])
            ++ [Event.configUpdate tns (configMapName tc) (compileData tc.spec)]) st := by
  unfold stageConfig
  simp only [h2, h4, hfind]

/-- Workload stage with a listable store: the explicit result record. -/
theorem stageDeploy_eq (cl : Cluster) (f : Faults) (now : Nat) (tns : String)
    (sel : Option Labels) (pods : List Pod) (nm : String) (evs : List Event)
    (st : TracingConfigStatus) (h5 : f.listDeploymentsErr = none) :
    stageDeploy cl f now tns sel pods nm evs st
      = { cluster := { cl with deployments := cl.deployments.map (fun d =>
            if deployMatches tns sel d && needsPatch nm d
                && (f.updateDeploymentErr d.name).isNone
            then patchDeployment nm d else d) },
          events := (((evs ++ [Event.deployList])
            ++ (cl.deployments.filter (fun d =>
                  deployMatches tns sel d && needsPatch nm d)).map (fun d =>
                  Event.deployUpdate d.nspace d.name))
            ++ [Event.statusWrite "Applied"
                  ("Tracing configuration applied to "
                    ++ toString (pods.map Pod.name).length ++ " pods")]),
          status := { st with phase := "Applied", message := "Tracing configuration applied to " ++ toString (pods.map Pod.name).length ++ " pods", appliedAt := some now, targetPods := pods.map Pod.name },
          ret := none } := by
  unfold stageDeploy stageFinal
  rw [h5]

/-- Workload-update events are exactly the workload writes of a trace
segment built from them. -/
theorem filter_workload_map (l : List Deployment) :
    (l.map (fun d => Event.deployUpdate d.nspace d.name)).filter isWorkloadWrite
      = l.map (fun d => Event.deployUpdate d.nspace d.name) := by
  induction l with
  | nil => rfl
  | cons h t ih => simp [isWorkloadWrite, ih]

/-- Workload-update events contain no config writes. -/
theorem filter_config_map (l : List Deployment) :
    (l.map (fun d => Event.deployUpdate d.nspace d.name)).filter isConfigWrite = [] := by
  induction l with
  | nil => rfl
  | cons h t ih => simp [isConfigWrite, ih]

/-- Searching a mapped list for a predicate the map preserves. -/
theorem find?_map_pres {α : Type} (p : α → Bool) (g : α → α) (l : List α)
    (hp : ∀ x, p (g x) = p x) :
    (l.map g).find? p = (l.find? p).map g := by
  induction l with
  | nil => rfl
  | cons hd tl ih =>
      simp only [List.map_cons, List.find?_cons, hp]
      cases hph : p hd <;> simp [hph, ih]

/-- Full characterization of a pass on which every store call up to and
including the deployment list succeeds (per-deployment update calls may
still fail): the pass succeeds, ends `Applied` with the matched-pod
count in the message, patches exactly the matched deployments that were
missing the reference and whose update call succeeds, leaves the config
object present with the compiled payload, attempts exactly one config
write, and attempts one workload write per matched deployment that was
missing the reference. -/
theorem run_props (tc : TracingConfig) (cl : Cluster) (f : Faults) (now : Nat)
    (hsel : selectorOkB tc = true)
    (h1 : f.listPodsErr = none) (h2 : f.getConfigErr = none)
    (h3 : f.createConfigErr = none) (h4 : f.updateConfigErr = none)
    (h5 : f.listDeploymentsErr = none) :
    (Reconcile tc cl f now).ret = none
    ∧ (Reconcile tc cl f now).status.phase = "Applied"
    ∧ (Reconcile tc cl f now).status.message
        = "Tracing configuration applied to " ++ toString (matchedPodCount tc cl) ++ " pods"
    ∧ (Reconcile tc cl f now).status.appliedAt = some now
    ∧ (Reconcile tc cl f now).cluster.pods = cl.pods
    ∧ (Reconcile tc cl f now).cluster.deployments
        = cl.deployments.map (fun d =>
            if deployMatches (targetNs tc) (selOf tc) d && needsPatch (configMapName tc) d
                && (f.updateDeploymentErr d.name).isNone
            then patchDeployment (configMapName tc) d else d)
    ∧ (Reconcile tc cl f now).cluster.configMaps.find?
          (fun cm => cm.name == configMapName tc && cm.nspace == targetNs tc)
        = some { name := configMapName tc, nspace := targetNs tc, data := compileData tc.spec }
    ∧ (∀ cm ∈ (Reconcile tc cl f now).cluster.configMaps,
          (cm.name == configMapName tc && cm.nspace == targetNs tc) = true →
          cm.data = compileData tc.spec)
    ∧ (Reconcile tc cl f now).events.filter isWorkloadWrite
        = (cl.deployments.filter (fun d =>
            deployMatches (targetNs tc) (selOf tc) d && needsPatch (configMapName tc) d)).map
            (fun d => Event.deployUpdate d.nspace d.name)
    ∧ countConfigWrites (Reconcile tc cl f now).events = 1
    ∧ (cl.configMaps.find?
          (fun cm => cm.name == configMapName tc && cm.nspace == targetNs tc) = none →
        (Reconcile tc cl f now).cluster.configMaps
          = cl.configMaps
              ++ [{ name := configMapName tc, nspace := targetNs tc, data := compileData tc.spec }])
    ∧ (cl.configMaps.find?
          (fun cm => cm.name == configMapName tc && cm.nspace == targetNs tc) ≠ none →
        (Reconcile tc cl f now).cluster.configMaps
          = cl.configMaps.map (fun cm =>
              if cm.name == configMapName tc && cm.nspace == targetNs tc
              then { cm with data := compileData tc.spec } else cm)) := by
  rw [reconcile_selOk tc cl f now hsel, stagePods_eq_ok tc cl f now _ _ _ _ h1]
  cases hfind : cl.configMaps.find?
      (fun cm => cm.name == configMapName tc && cm.nspace == targetNs tc) with
  | none =>
      rw [stageConfig_eq_create tc cl f now _ _ _ _ _ h2 h3 hfind,
          stageDeploy_eq _ f now _ _ _ _ _ _ h5]
      refine ⟨rfl, rfl, ?_, rfl, rfl, rfl, ?_, ?_, ?_, ?_, fun _ => rfl, fun h => absurd rfl h⟩
      · simp [matchedPodCount]
      · rw [List.find?_append, hfind]
        simp
      · intro cm hmem hp
        rcases List.mem_append.mp hmem with hml | hmr
        · exact absurd hp (by simpa using List.find?_eq_none.mp hfind cm hml)
        · have hcm : cm = { name := configMapName tc, nspace := targetNs tc, data := compileData tc.spec } := by simpa using hmr
          rw [hcm]
      · simp [List.filter_append, isWorkloadWrite, filter_workload_map]
      · simp [countConfigWrites, List.filter_append, isConfigWrite, filter_config_map]
  | some cm0 =>
      rw [stageConfig_eq_update tc cl f now _ _ _ _ _ cm0 h2 h4 hfind,
          stageDeploy_eq _ f now _ _ _ _ _ _ h5]
      have hp : ∀ x : ConfigMap,
          ((if x.name == configMapName tc && x.nspace == targetNs tc
            then { x with data := compileData tc.spec } else x).name == configMapName tc
            && (if x.name == configMapName tc && x.nspace == targetNs tc
                then { x with data := compileData tc.spec } else x).nspace == targetNs tc)
          = (x.name == configMapName tc && x.nspace == targetNs tc) := by
        intro x
        by_cases hx : (x.name == configMapName tc && x.nspace == targetNs tc) = true <;>
          simp [hx]
      refine ⟨rfl, rfl, ?_, rfl, rfl, rfl, ?_, ?_, ?_, ?_, fun h => absurd h (by simp [hfind]), fun _ => rfl⟩
      · simp [matchedPodCount]
      · rw [find?_map_pres _ _ _ hp, hfind]
        have hpcm0 := List.find?_some hfind
        have hname : cm0.name = configMapName tc := by
          have := (Bool.and_eq_true _ _).mp hpcm0
          simpa using this.1
        have hns : cm0.nspace = targetNs tc := by
          have := (Bool.and_eq_true _ _).mp hpcm0
          simpa using this.2
        simp only [Option.map_some', hpcm0, if_true]
        obtain ⟨n0, ns0, d0⟩ := cm0
        simp only at hname hns
        rw [hname, hns]
      · intro cm hmem hpcm
        obtain ⟨x, hx, hgx⟩ := List.mem_map.mp hmem
        by_cases hpx : (x.name == configMapName tc && x.nspace == targetNs tc) = true
        · rw [← hgx]
          simp [hpx]
        · rw [← hgx] at hpcm
          rw [hp x] at hpcm
          exact absurd hpcm hpx
      · simp [List.filter_append, isWorkloadWrite, filter_workload_map]
      · simp [countConfigWrites, List.filter_append, isConfigWrite, filter_config_map]

/-! ### Claim theorems: fatal short-circuit and Pending-first -/

/-- C6: given a structurally invalid label selector, the pass changes
nothing in the store, attempts no config write, never lists pods or
deployments, attempts no workload write, and ends with a `Failed`
status whose message names the selector problem, returning the error. -/
theorem c6_fatal_short_circuit (tc : TracingConfig) (cl : Cluster) (f : Faults) (now : Nat)
    (s : LabelSelector) (e : String)
    (hsel : tc.spec.selector = some s) (herr : s.parseError = some e) :
    (Reconcile tc cl f now).cluster = cl
    ∧ countConfigWrites (Reconcile tc cl f now).events = 0
    ∧ countWorkloadWrites (Reconcile tc cl f now).events = 0
    ∧ Event.podList ∉ (Reconcile tc cl f now).events
    ∧ Event.deployList ∉ (Reconcile tc cl f now).events
    ∧ (Reconcile tc cl f now).status.phase = "Failed"
    ∧ (Reconcile tc cl f now).status.message = "Invalid label selector: " ++ e
    ∧ (Reconcile tc cl f now).ret = some e := by
  unfold Reconcile
  simp [hsel, herr, countConfigWrites, countWorkloadWrites, isConfigWrite, isWorkloadWrite]

/-- Witness for C6 at the concrete invalid-selector policy. -/
theorem c6_fatal_short_circuit_witness :
    exPolicyBadSel.spec.selector
        = some { matchLabels := [], parseError := some "bad operator" }
    ∧ ((Reconcile exPolicyBadSel exCluster noFaults 0).cluster = exCluster
      ∧ countConfigWrites (Reconcile exPolicyBadSel exCluster noFaults 0).events = 0
      ∧ countWorkloadWrites (Reconcile exPolicyBadSel exCluster noFaults 0).events = 0
      ∧ Event.podList ∉ (Reconcile exPolicyBadSel exCluster noFaults 0).events
      ∧ Event.deployList ∉ (Reconcile exPolicyBadSel exCluster noFaults 0).events
      ∧ (Reconcile exPolicyBadSel exCluster noFaults 0).status.phase = "Failed"
      ∧ (Reconcile exPolicyBadSel exCluster noFaults 0).status.message
          = "Invalid label selector: " ++ "bad operator"
      ∧ (Reconcile exPolicyBadSel exCluster noFaults 0).ret = some "bad operator") :=
  ⟨rfl, c6_fatal_short_circuit exPolicyBadSel exCluster noFaults 0
      { matchLabels := [], parseError := some "bad operator" } "bad operator" rfl rfl⟩

/-- C2 fails as stated on the code: a store failure on the config-object
READ (non-NotFound) aborts the pass and prevents patching, but the code
returns without writing a `Failed` status — the phase stays `Pending`
(controller/main.go lines 247-250). -/
theorem c2_counterexample :
    (Reconcile exPolicy exCluster (faultGetConfig "boom") 0).ret = some "boom"
    ∧ ¬ (Reconcile exPolicy exCluster (faultGetConfig "boom") 0).status.phase = "Failed"
    ∧ countWorkloadWrites (Reconcile exPolicy exCluster (faultGetConfig "boom") 0).events = 0
    ∧ Event.deployList ∉ (Reconcile exPolicy exCluster (faultGetConfig "boom") 0).events := by
  decide

/-- C2 amended: a failure of the pod list, config create or config
update aborts the pass with a `Failed` status and no workload patching;
a failure of the config-object read also aborts with no patching, but
the status phase remains `Pending` rather than being set to `Failed`. -/
theorem c2_prewrite_failure_amended (tc : TracingConfig) (cl : Cluster) (now : Nat)
    (e : String) (hsel : selectorOkB tc = true) :
    ((Reconcile tc cl (faultListPods e) now).status.phase = "Failed"
      ∧ (Reconcile tc cl (faultListPods e) now).ret = some e
      ∧ (Reconcile tc cl (faultListPods e) now).cluster = cl
      ∧ countConfigWrites (Reconcile tc cl (faultListPods e) now).events = 0
      ∧ countWorkloadWrites (Reconcile tc cl (faultListPods e) now).events = 0
      ∧ Event.deployList ∉ (Reconcile tc cl (faultListPods e) now).events)
    ∧ ((Reconcile tc cl (faultGetConfig e) now).status.phase = "Pending"
      ∧ (Reconcile tc cl (faultGetConfig e) now).ret = some e
      ∧ (Reconcile tc cl (faultGetConfig e) now).cluster = cl
      ∧ countConfigWrites (Reconcile tc cl (faultGetConfig e) now).events = 0
      ∧ countWorkloadWrites (Reconcile tc cl (faultGetConfig e) now).events = 0
      ∧ Event.deployList ∉ (Reconcile tc cl (faultGetConfig e) now).events)
    ∧ (cl.configMaps.find?
          (fun cm => cm.name == configMapName tc && cm.nspace == targetNs tc) = none →
        (Reconcile tc cl (faultCreateConfig e) now).status.phase = "Failed"
      ∧ (Reconcile tc cl (faultCreateConfig e) now).ret = some e
      ∧ (Reconcile tc cl (faultCreateConfig e) now).cluster = cl
      ∧ countWorkloadWrites (Reconcile tc cl (faultCreateConfig e) now).events = 0
      ∧ Event.deployList ∉ (Reconcile tc cl (faultCreateConfig e) now).events)
    ∧ (∀ cm0, cl.configMaps.find?
          (fun cm => cm.name == configMapName tc && cm.nspace == targetNs tc) = some cm0 →
        (Reconcile tc cl (faultUpdateConfig e) now).status.phase = "Failed"
      ∧ (Reconcile tc cl (faultUpdateConfig e) now).ret = some e
      ∧ (Reconcile tc cl (faultUpdateConfig e) now).cluster = cl
      ∧ countWorkloadWrites (Reconcile tc cl (faultUpdateConfig e) now).events = 0
      ∧ Event.deployList ∉ (Reconcile tc cl (faultUpdateConfig e) now).events) := by
  refine ⟨?_, ?_, ?_, ?_⟩
  · rw [reconcile_selOk tc cl (faultListPods e) now hsel]
    unfold stagePods
    simp [countConfigWrites, countWorkloadWrites, isConfigWrite, isWorkloadWrite,
          faultListPods, noFaults]
  · rw [reconcile_selOk tc cl (faultGetConfig e) now hsel,
        stagePods_eq_ok tc cl (faultGetConfig e) now _ _ _ _ rfl]
    unfold stageConfig
    simp [countConfigWrites, countWorkloadWrites, isConfigWrite, isWorkloadWrite,
          faultGetConfig, noFaults]
  · intro hfind
    rw [reconcile_selOk tc cl (faultCreateConfig e) now hsel,
        stagePods_eq_ok tc cl (faultCreateConfig e) now _ _ _ _ rfl]
    unfold stageConfig
    simp [hfind, countWorkloadWrites, isWorkloadWrite, faultCreateConfig, noFaults]
  · intro cm0 hfind
    rw [reconcile_selOk tc cl (faultUpdateConfig e) now hsel,
        stagePods_eq_ok tc cl (faultUpdateConfig e) now _ _ _ _ rfl]
    unfold stageConfig
    simp [hfind, countWorkloadWrites, isWorkloadWrite, faultUpdateConfig, noFaults]

/-- Witness for C2 amended: the pod-list and read cases at the empty
cluster and the create case there, the update case at the cluster that
already holds the config object. -/
theorem c2_prewrite_failure_amended_witness :
    selectorOkB exPolicy = true
    ∧ ((Reconcile exPolicy exCluster (faultListPods "boom") 0).status.phase = "Failed"
      ∧ (Reconcile exPolicy exCluster (faultGetConfig "boom") 0).status.phase = "Pending"
      ∧ (Reconcile exPolicy exCluster (faultCreateConfig "boom") 0).status.phase = "Failed"
      ∧ countWorkloadWrites (Reconcile exPolicy exCluster (faultCreateConfig "boom") 0).events = 0
      ∧ (Reconcile exPolicy exClusterWithCM (faultUpdateConfig "boom") 0).status.phase = "Failed"
      ∧ countWorkloadWrites (Reconcile exPolicy exClusterWithCM (faultUpdateConfig "boom") 0).events = 0) := by
  refine ⟨by decide, ?_, ?_, ?_, ?_, ?_, ?_⟩
  · exact (c2_prewrite_failure_amended exPolicy exCluster 0 "boom" (by decide)).1.1
  · exact (c2_prewrite_failure_amended exPolicy exCluster 0 "boom" (by decide)).2.1.1
  · exact ((c2_prewrite_failure_amended exPolicy exCluster 0 "boom" (by decide)).2.2.1
      (by decide)).1
  · exact ((c2_prewrite_failure_amended exPolicy exCluster 0 "boom" (by decide)).2.2.1
      (by decide)).2.2.2.1
  · exact ((c2_prewrite_failure_amended exPolicy exClusterWithCM 0 "boom" (by decide)).2.2.2
      { name := "pol-tracing-config", nspace := "default", data := [] } (by decide)).1
  · exact ((c2_prewrite_failure_amended exPolicy exClusterWithCM 0 "boom" (by decide)).2.2.2
      { name := "pol-tracing-config", nspace := "default", data := [] } (by decide)).2.2.2.1

/-- C3 fails as stated on the code: when the workload (deployment) list
itself fails — a fatal list error of the Workload Patcher — the code
only logs the error and still sets the status to `Applied`
(controller/main.go lines 266-267 and 311-321). -/
theorem c3_counterexample :
    (faultListDeployments "boom").listDeploymentsErr = some "boom"
    ∧ (Reconcile exPolicy exCluster (faultListDeployments "boom") 0).status.phase = "Applied"
    ∧ (Reconcile exPolicy exCluster (faultListDeployments "boom") 0).ret = none := by
  decide

/-- C3 amended: a deployment-list failure does not prevent `Applied`
(the pass ends `Applied` with no workload write and the pod-match count
in the message); a pod-list failure does yield `Failed`; and a write
failure on individual workloads is isolated: every other matched
workload is still patched, the status still becomes `Applied`, and the
message reports the number of pods matching the selector. -/
theorem c3_applied_amended (tc : TracingConfig) (cl : Cluster) (now : Nat) (e : String)
    (bad : String → Option String) (hsel : selectorOkB tc = true) :
    ((Reconcile tc cl (faultListDeployments e) now).status.phase = "Applied"
      ∧ (Reconcile tc cl (faultListDeployments e) now).ret = none
      ∧ countWorkloadWrites (Reconcile tc cl (faultListDeployments e) now).events = 0
      ∧ (Reconcile tc cl (faultListDeployments e) now).status.message
          = "Tracing configuration applied to " ++ toString (matchedPodCount tc cl) ++ " pods")
    ∧ (Reconcile tc cl (faultListPods e) now).status.phase = "Failed"
    ∧ ((Reconcile tc cl { noFaults with updateDeploymentErr := bad } now).status.phase = "Applied"
      ∧ (Reconcile tc cl { noFaults with updateDeploymentErr := bad } now).ret = none
      ∧ (Reconcile tc cl { noFaults with updateDeploymentErr := bad } now).status.message
          = "Tracing configuration applied to " ++ toString (matchedPodCount tc cl) ++ " pods"
      ∧ ∀ (i : Nat) (d : Deployment), cl.deployments[i]? = some d →
          (Reconcile tc cl { noFaults with updateDeploymentErr := bad } now).cluster.deployments[i]?
            = some (if deployMatches (targetNs tc) (selOf tc) d
                  && needsPatch (configMapName tc) d && (bad d.name).isNone
                then patchDeployment (configMapName tc) d else d)) := by
  refine ⟨?_, ?_, ?_⟩
  · rw [reconcile_selOk tc cl (faultListDeployments e) now hsel,
        stagePods_eq_ok tc cl (faultListDeployments e) now _ _ _ _ rfl]
    cases hfind : cl.configMaps.find?
        (fun cm => cm.name == configMapName tc && cm.nspace == targetNs tc) with
    | none =>
        rw [stageConfig_eq_create tc cl (faultListDeployments e) now _ _ _ _ _ rfl rfl hfind]
        unfold stageDeploy stageFinal
        simp [countWorkloadWrites, isWorkloadWrite, faultListDeployments, noFaults,
              matchedPodCount]
    | some cm0 =>
        rw [stageConfig_eq_update tc cl (faultListDeployments e) now _ _ _ _ _ cm0 rfl rfl hfind]
        unfold stageDeploy stageFinal
        simp [countWorkloadWrites, isWorkloadWrite, faultListDeployments, noFaults,
              matchedPodCount]
  · rw [reconcile_selOk tc cl (faultListPods e) now hsel]
    unfold stagePods
    simp [faultListPods, noFaults]
  · obtain ⟨hret, hphase, hmsg, _, _, hdeps, _, _, _, _⟩ :=
      run_props tc cl { noFaults with updateDeploymentErr := bad } now hsel rfl rfl rfl rfl rfl
    refine ⟨hphase, hret, hmsg, ?_⟩
    intro i d hd
    rw [hdeps, List.getElem?_map, hd, Option.map_some']

/-- Witness for C3 amended at the concrete one-deployment cluster, with
the single deployment's update failing. -/
theorem c3_applied_amended_witness :
    selectorOkB exPolicy = true
    ∧ ((Reconcile exPolicy exCluster (faultListDeployments "boom") 0).status.phase = "Applied"
      ∧ (Reconcile exPolicy exCluster (faultListPods "boom") 0).status.phase = "Failed"
      ∧ (Reconcile exPolicy exCluster
            { noFaults with updateDeploymentErr := (faultUpdateDeployment "d1" "boom").updateDeploymentErr } 0).status.phase
          = "Applied"
      ∧ (Reconcile exPolicy exCluster
            { noFaults with updateDeploymentErr := (faultUpdateDeployment "d1" "boom").updateDeploymentErr } 0).cluster.deployments[0]?
          = some (if deployMatches (targetNs exPolicy) (selOf exPolicy) exDeployment
                && needsPatch (configMapName exPolicy) exDeployment
                && ((faultUpdateDeployment "d1" "boom").updateDeploymentErr exDeployment.name).isNone
              then patchDeployment (configMapName exPolicy) exDeployment else exDeployment)) := by
  refine ⟨by decide, ?_, ?_, ?_, ?_⟩
  · exact (c3_applied_amended exPolicy exCluster 0 "boom"
      (faultUpdateDeployment "d1" "boom").updateDeploymentErr (by decide)).1.1
  · exact (c3_applied_amended exPolicy exCluster 0 "boom"
      (faultUpdateDeployment "d1" "boom").updateDeploymentErr (by decide)).2.1
  · exact (c3_applied_amended exPolicy exCluster 0 "boom"
      (faultUpdateDeployment "d1" "boom").updateDeploymentErr (by decide)).2.2.1
  · exact (c3_applied_amended exPolicy exCluster 0 "boom"
      (faultUpdateDeployment "d1" "boom").updateDeploymentErr (by decide)).2.2.2.2.2
      0 exDeployment rfl

/-- C7: every pass that finds the policy records the `Pending` status
write (with the work-in-progress message) as its very first store
operation, before any config-object or workload mutation. -/
theorem c7_pending_first (tc : TracingConfig) (cl : Cluster) (f : Faults) (now : Nat) :
    ∃ rest, (Reconcile tc cl f now).events
      = Event.statusWrite "Pending" "Processing tracing configuration" :: rest := by
  unfold Reconcile stagePods stageConfig stageDeploy stageFinal
  dsimp only
  repeat' split
  all_goals exact ⟨_, rfl⟩

/-- After patching, no container of the deployment is missing the
reference. -/
theorem needsPatch_patch (nm : String) (d : Deployment) :
    needsPatch nm (patchDeployment nm d) = false := by
  simp [needsPatch, patchDeployment, List.any_map, Function.comp, hasRef_patch]

/-- The container patch only ever appends to the `EnvFrom` list: the
original list is a prefix of the patched one. -/
theorem envFrom_patch (nm : String) (c : Container) :
    ∃ t, (patchContainer nm c).envFrom = c.envFrom ++ t := by
  by_cases h : hasConfigMapRef nm c
  · exact ⟨[], by simp [patch_of_hasRef h]⟩
  · refine ⟨[{ configMapRef := some nm }], ?_⟩
    unfold patchContainer
    rw [if_neg h]

/-- C8: in a pass with no store faults, a workload receives exactly one
update attempt iff it matches the selector and at least one of its
containers was missing the reference (the trace's workload writes are
one per such deployment, in order, and none for the others); an
unmodified workload is left exactly as it was; a modified one is the
container-wise patch, which preserves container count and only appends
to each container's `EnvFrom` list, never removing or reordering the
existing references. -/
theorem c8_frame_effect (tc : TracingConfig) (cl : Cluster) (now : Nat)
    (hsel : selectorOkB tc = true) :
    (Reconcile tc cl noFaults now).events.filter isWorkloadWrite
        = (cl.deployments.filter (fun d =>
            deployMatches (targetNs tc) (selOf tc) d && needsPatch (configMapName tc) d)).map
            (fun d => Event.deployUpdate d.nspace d.name)
    ∧ ∀ (i : Nat) (d : Deployment), cl.deployments[i]? = some d →
        ∃ d', (Reconcile tc cl noFaults now).cluster.deployments[i]? = some d'
          ∧ ((deployMatches (targetNs tc) (selOf tc) d
                && needsPatch (configMapName tc) d) = false → d' = d)
          ∧ ((deployMatches (targetNs tc) (selOf tc) d
                && needsPatch (configMapName tc) d) = true
              → d' = patchDeployment (configMapName tc) d)
          ∧ d'.containers.length = d.containers.length
          ∧ ∀ (j : Nat) (c : Container), d.containers[j]? = some c →
              ∃ c', d'.containers[j]? = some c' ∧ ∃ t, c'.envFrom = c.envFrom ++ t := by
  obtain ⟨-, -, -, -, -, hdeps, -, -, hflt, -, -, -⟩ :=
    run_props tc cl noFaults now hsel rfl rfl rfl rfl rfl
  have hdeps' : (Reconcile tc cl noFaults now).cluster.deployments
      = cl.deployments.map (fun d =>
          if deployMatches (targetNs tc) (selOf tc) d && needsPatch (configMapName tc) d
          then patchDeployment (configMapName tc) d else d) := by
    rw [hdeps]
    apply List.map_congr_left
    intro d _
    simp [noFaults]
  refine ⟨hflt, ?_⟩
  intro i d hd
  rw [hdeps', List.getElem?_map, hd, Option.map_some']
  by_cases hc : (deployMatches (targetNs tc) (selOf tc) d
      && needsPatch (configMapName tc) d) = true
  · refine ⟨patchDeployment (configMapName tc) d, by rw [if_pos hc], ?_, fun _ => rfl, ?_, ?_⟩
    · intro hfalse
      rw [hc] at hfalse
      exact absurd hfalse (by simp)
    · simp [patchDeployment]
    · intro j c hcj
      refine ⟨patchContainer (configMapName tc) c, ?_, envFrom_patch _ _⟩
      simp [patchDeployment, List.getElem?_map, hcj]
  · refine ⟨d, by rw [if_neg hc], fun _ => rfl, fun htrue => absurd htrue hc, rfl, ?_⟩
    intro j c hcj
    exact ⟨c, hcj, [], by simp⟩

/-- Witness for C8 at the concrete cluster: the single matched
deployment is written once and gains the reference append-only. -/
theorem c8_frame_effect_witness :
    selectorOkB exPolicy = true
    ∧ (Reconcile exPolicy exCluster noFaults 0).events.filter isWorkloadWrite
        = (exCluster.deployments.filter (fun d =>
            deployMatches (targetNs exPolicy) (selOf exPolicy) d
              && needsPatch (configMapName exPolicy) d)).map
            (fun d => Event.deployUpdate d.nspace d.name)
    ∧ (∃ d', (Reconcile exPolicy exCluster noFaults 0).cluster.deployments[0]? = some d'
        ∧ ((deployMatches (targetNs exPolicy) (selOf exPolicy) exDeployment
              && needsPatch (configMapName exPolicy) exDeployment) = false → d' = exDeployment)
        ∧ ((deployMatches (targetNs exPolicy) (selOf exPolicy) exDeployment
              && needsPatch (configMapName exPolicy) exDeployment) = true
            → d' = patchDeployment (configMapName exPolicy) exDeployment)
        ∧ d'.containers.length = exDeployment.containers.length
        ∧ ∀ (j : Nat) (c : Container), exDeployment.containers[j]? = some c →
            ∃ c', d'.containers[j]? = some c' ∧ ∃ t, c'.envFrom = c.envFrom ++ t) :=
  ⟨by decide, (c8_frame_effect exPolicy exCluster 0 (by decide)).1,
    (c8_frame_effect exPolicy exCluster 0 (by decide)).2 0 exDeployment rfl⟩

/-- C1 fails as stated on the code: with no intervening spec change the
second pass still performs one write to the derived config object,
because the update branch overwrites unconditionally without comparing
payloads (controller/main.go lines 252-254). -/
theorem c1_counterexample :
    countConfigWrites
        (Reconcile exPolicy (Reconcile exPolicy exCluster noFaults 0).cluster noFaults 1).events
      = 1
    ∧ ¬ countConfigWrites
        (Reconcile exPolicy (Reconcile exPolicy exCluster noFaults 0).cluster noFaults 1).events
      = 0 := by
  decide

/-- C1 amended: the second of two consecutive passes with no spec
change performs zero workload writes, leaves the whole store state
untouched, and ends with status `Applied` — but it performs exactly one
(contentless) write to the derived config object rather than zero,
since the config update is unconditional. -/
theorem c1_idempotence_amended (tc : TracingConfig) (cl : Cluster) (n1 n2 : Nat)
    (hsel : selectorOkB tc = true) :
    countWorkloadWrites
        (Reconcile tc (Reconcile tc cl noFaults n1).cluster noFaults n2).events = 0
    ∧ countConfigWrites
        (Reconcile tc (Reconcile tc cl noFaults n1).cluster noFaults n2).events = 1
    ∧ (Reconcile tc (Reconcile tc cl noFaults n1).cluster noFaults n2).status.phase = "Applied"
    ∧ (Reconcile tc (Reconcile tc cl noFaults n1).cluster noFaults n2).ret = none
    ∧ (Reconcile tc (Reconcile tc cl noFaults n1).cluster noFaults n2).cluster
        = (Reconcile tc cl noFaults n1).cluster := by
  obtain ⟨-, -, -, -, -, hdeps1, hfind1, hdata1, -, -, -, -⟩ :=
    run_props tc cl noFaults n1 hsel rfl rfl rfl rfl rfl
  obtain ⟨hret2, hph2, -, -, hpods2, hdeps2, -, -, hflt2, hcc2, -, hcms2⟩ :=
    run_props tc (Reconcile tc cl noFaults n1).cluster noFaults n2 hsel rfl rfl rfl rfl rfl
  have hnod : ∀ d ∈ (Reconcile tc cl noFaults n1).cluster.deployments,
      (deployMatches (targetNs tc) (selOf tc) d && needsPatch (configMapName tc) d) = false := by
    intro d hd
    rw [hdeps1] at hd
    obtain ⟨d0, hd0, rfl⟩ := List.mem_map.mp hd
    by_cases hc : (deployMatches (targetNs tc) (selOf tc) d0
        && needsPatch (configMapName tc) d0) = true
    · have hred : (if deployMatches (targetNs tc) (selOf tc) d0
            && needsPatch (configMapName tc) d0
            && (noFaults.updateDeploymentErr d0.name).isNone
          then patchDeployment (configMapName tc) d0 else d0)
          = patchDeployment (configMapName tc) d0 := by
        simp [hc, noFaults]
      rw [hred]
      have hmm : deployMatches (targetNs tc) (selOf tc)
          (patchDeployment (configMapName tc) d0)
          = deployMatches (targetNs tc) (selOf tc) d0 := rfl
      rw [hmm, needsPatch_patch]
      simp
    · have hred : (if deployMatches (targetNs tc) (selOf tc) d0
            && needsPatch (configMapName tc) d0
            && (noFaults.updateDeploymentErr d0.name).isNone
          then patchDeployment (configMapName tc) d0 else d0) = d0 := by
        have hc' : (deployMatches (targetNs tc) (selOf tc) d0
            && needsPatch (configMapName tc) d0) = false := by
          simpa using hc
        simp [hc']
      rw [hred]
      simpa using hc
  have hfltnil : (Reconcile tc cl noFaults n1).cluster.deployments.filter
      (fun d => deployMatches (targetNs tc) (selOf tc) d
        && needsPatch (configMapName tc) d) = [] := by
    rw [List.filter_eq_nil_iff]
    intro d hd
    simp [hnod d hd]
  refine ⟨?_, hcc2, hph2, hret2, ?_⟩
  · unfold countWorkloadWrites
    rw [hflt2, hfltnil]
    rfl
  · have e1 : (Reconcile tc (Reconcile tc cl noFaults n1).cluster noFaults n2).cluster.pods
        = (Reconcile tc cl noFaults n1).cluster.pods := hpods2
    have e3 : (Reconcile tc (Reconcile tc cl noFaults n1).cluster noFaults n2).cluster.deployments
        = (Reconcile tc cl noFaults n1).cluster.deployments := by
      rw [hdeps2]
      have hcongr : (Reconcile tc cl noFaults n1).cluster.deployments.map (fun d =>
          if deployMatches (targetNs tc) (selOf tc) d && needsPatch (configMapName tc) d
              && (noFaults.updateDeploymentErr d.name).isNone
          then patchDeployment (configMapName tc) d else d)
          = (Reconcile tc cl noFaults n1).cluster.deployments.map id := by
        apply List.map_congr_left
        intro d hd
        have := hnod d hd
        simp [this]
      rw [hcongr, List.map_id]
    have e2 : (Reconcile tc (Reconcile tc cl noFaults n1).cluster noFaults n2).cluster.configMaps
        = (Reconcile tc cl noFaults n1).cluster.configMaps := by
      have hne : (Reconcile tc cl noFaults n1).cluster.configMaps.find?
          (fun cm => cm.name == configMapName tc && cm.nspace == targetNs tc) ≠ none := by
        rw [hfind1]
        simp
      rw [hcms2 hne]
      have hcongr : (Reconcile tc cl noFaults n1).cluster.configMaps.map (fun cm =>
          if cm.name == configMapName tc && cm.nspace == targetNs tc
          then { cm with data := compileData tc.spec } else cm)
          = (Reconcile tc cl noFaults n1).cluster.configMaps.map id := by
        apply List.map_congr_left
        intro cm hcm
        by_cases hp : (cm.name == configMapName tc && cm.nspace == targetNs tc) = true
        · have hdd := hdata1 cm hcm hp
          obtain ⟨n0, ns0, dd0⟩ := cm
          simp only at hdd
          simp [hp, hdd]
        · simp [hp]
      rw [hcongr, List.map_id]
    calc (Reconcile tc (Reconcile tc cl noFaults n1).cluster noFaults n2).cluster
        = { pods := (Reconcile tc (Reconcile tc cl noFaults n1).cluster noFaults n2).cluster.pods,
            configMaps := (Reconcile tc (Reconcile tc cl noFaults n1).cluster noFaults n2).cluster.configMaps,
            deployments := (Reconcile tc (Reconcile tc cl noFaults n1).cluster noFaults n2).cluster.deployments } := rfl
      _ = { pods := (Reconcile tc cl noFaults n1).cluster.pods,
            configMaps := (Reconcile tc cl noFaults n1).cluster.configMaps,
            deployments := (Reconcile tc cl noFaults n1).cluster.deployments } := by
          rw [e1, e2, e3]
      _ = (Reconcile tc cl noFaults n1).cluster := rfl

/-- Witness for C1 amended at the concrete policy and cluster. -/
theorem c1_idempotence_amended_witness :
    selectorOkB exPolicy = true
    ∧ (countWorkloadWrites
          (Reconcile exPolicy (Reconcile exPolicy exCluster noFaults 0).cluster noFaults 1).events = 0
      ∧ countConfigWrites
          (Reconcile exPolicy (Reconcile exPolicy exCluster noFaults 0).cluster noFaults 1).events = 1
      ∧ (Reconcile exPolicy (Reconcile exPolicy exCluster noFaults 0).cluster noFaults 1).status.phase
          = "Applied"
      ∧ (Reconcile exPolicy (Reconcile exPolicy exCluster noFaults 0).cluster noFaults 1).ret = none
      ∧ (Reconcile exPolicy (Reconcile exPolicy exCluster noFaults 0).cluster noFaults 1).cluster
          = (Reconcile exPolicy exCluster noFaults 0).cluster) :=
  ⟨by decide, c1_idempotence_amended exPolicy exCluster 0 1 (by decide)⟩

/-- C10: the reconciler never reads `Spec.Enabled` or `Spec.Headers`:
two policies differing only in those fields produce the same pass
result — same store state, same trace, same status, same return value —
so disabling a policy does not stop or alter reconciliation. -/
theorem c10_enabled_headers_irrelevant (tc : TracingConfig) (cl : Cluster) (f : Faults)
    (now : Nat) (e : Bool) (hs : List (String × String)) :
    Reconcile { tc with spec := { tc.spec with enabled := e, headers := hs } } cl f now
      = Reconcile tc cl f now := by
  obtain ⟨nm, ns, sp, st⟩ := tc
  obtain ⟨en, sr, ep, sn, nsp, sel, hd, attrs, et, bt, mbs⟩ := sp
  rfl

end KV
